import Mathlib

/- Shallow embedding of the numerical orbit-integrator core of the ORB.POND
   repository.  Each Python source file is modelled in its own namespace:

   * `Orbit`    : orbit_current/orbit.py         (RK4 satellite-photography game)
   * `Launch`   : orbit_current/assets/launch.py (RK4 vs Verlet rocket game)
   * `Lagrange` : src/opg/lagrange.py            (leapfrog Lagrange-point game)

   Python floats are modelled as real numbers, pygame 2D vectors as pairs of
   reals, and the Python float modulo operator as floored real modulo. -/

noncomputable section

/-- Euclidean length of a 2D vector: the embedding of pygame Vector2.length
and of math.hypot. -/
def vnorm (v : ℝ × ℝ) : ℝ := Real.sqrt (v.1 ^ 2 + v.2 ^ 2)

/-- Division of a 2D vector by a scalar, as pygame Vector2 division. -/
def vdiv (v : ℝ × ℝ) (c : ℝ) : ℝ × ℝ := (v.1 / c, v.2 / c)

/-- Embedding of pygame Vector2.normalize: divide the vector by its length. -/
def vnormalize (v : ℝ × ℝ) : ℝ × ℝ := vdiv v (vnorm v)

/-- Two-argument arctangent, the embedding of math.atan2: the argument of the
complex number x + y*i, in the interval (-pi, pi]. -/
def atan2 (y x : ℝ) : ℝ := Complex.arg ⟨x, y⟩

/-- Embedding of math.degrees. -/
def degrees (t : ℝ) : ℝ := t * (180 / Real.pi)

/-- Embedding of pygame Vector2.angle_to: the signed angle, in degrees, from
vector v to vector w, computed from the two atan2 values. -/
def angle_to (v w : ℝ × ℝ) : ℝ := degrees (atan2 w.2 w.1 - atan2 v.2 v.1)

/-- Floored real modulo: the embedding of the Python float modulo operator,
whose result has the sign of the divisor. -/
def floorMod (a b : ℝ) : ℝ := a - b * ⌊a / b⌋

/-- Status of a rocket or satellite in the launch game, the embedding of the
string-valued status field taking the values In-Orbit, Lost and Collided. -/
inductive Status where
  | inOrbit
  | lost
  | collided
  deriving DecidableEq, Repr

/-- Specification-side definition: one step of the classical fourth-order
Runge-Kutta scheme for the derivative function F, with the four stage
evaluations at s, s + (dt/2)*k1, s + (dt/2)*k2 and s + dt*k3 and the final
combination s + (dt/6)*(k1 + 2*k2 + 2*k3 + k4).  The source integrators are
proved equal to instances of this definition. -/
def classicalRK4 {V : Type} [Add V] [SMul ℝ V] (F : V → V) (dt : ℝ) (s : V) : V :=
  let k1 := F s
  let k2 := F (s + (dt / 2) • k1)
  let k3 := F (s + (dt / 2) • k2)
  let k4 := F (s + dt • k3)
  s + (dt / 6) • (k1 + (2 : ℝ) • k2 + (2 : ℝ) • k3 + k4)

namespace Orbit

/-- Gravitational constant G of orbit_current/orbit.py. -/
def G : ℝ := 2000.0

/-- Integration timestep DT of orbit_current/orbit.py. -/
def DT : ℝ := 0.02

/-- Screen width of orbit_current/orbit.py. -/
def WIDTH : ℝ := 1280

/-- Screen height of orbit_current/orbit.py. -/
def HEIGHT : ℝ := 720

/-- Picture margin constant of orbit_current/orbit.py. -/
def PICTURE_MARGIN : ℝ := 100

/-- Satellite radius: half the width of the 40 by 40 scaled satellite image. -/
def satellite_radius : ℝ := 20

/-- An asteroid record of orbit_current/orbit.py: a dictionary with a position,
a mass, a pictured flag and an integer size (the image field is presentation
only and is not modelled). -/
structure Asteroid where
  posx : ℝ
  posy : ℝ
  mass : ℝ
  pictured : Bool
  size : ℕ

/-- Integration state of the satellite: the four-element list [x, y, vx, vy]
of orbit_current/orbit.py. -/
structure RKState where
  x : ℝ
  y : ℝ
  vx : ℝ
  vy : ℝ

instance : Add RKState :=
  ⟨fun a b => ⟨a.x + b.x, a.y + b.y, a.vx + b.vx, a.vy + b.vy⟩⟩

instance : SMul ℝ RKState :=
  ⟨fun c a => ⟨c * a.x, c * a.y, c * a.vx, c * a.vy⟩⟩

/-- The clamped squared separation used by the acceleration routine of
orbit_current/orbit.py: r_sq = dx*dx + dy*dy, replaced by 1 when below 1. -/
def clampedRsq (s : RKState) (ast : Asteroid) : ℝ :=
  let dx := ast.posx - s.x
  let dy := ast.posy - s.y
  if dx * dx + dy * dy < 1 then 1 else dx * dx + dy * dy

/-- Contribution of one asteroid inside the acceleration loop of
orbit_current/orbit.py: a = G*mass/r_sq and the vector (a*dx/r, a*dy/r) with
r = sqrt r_sq, where r_sq is the clamped squared separation. -/
def accelContrib (s : RKState) (ast : Asteroid) : ℝ × ℝ :=
  let dx := ast.posx - s.x
  let dy := ast.posy - s.y
  let r_sq := clampedRsq s ast
  let r := Real.sqrt r_sq
  let a := G * ast.mass / r_sq
  (a * (dx / r), a * (dy / r))

/-- The acceleration function of orbit_current/orbit.py: starting from
(ax, ay) = (0, 0), add the contribution of every asteroid in order. -/
def acceleration (s : RKState) (asteroids : List Asteroid) : ℝ × ℝ :=
  asteroids.foldl (fun acc ast => acc + accelContrib s ast) (0, 0)

/-- The derivative function f of rk4_step in orbit_current/orbit.py:
f(x, y, vx, vy) = (vx, vy, ax, ay) with (ax, ay) the acceleration. -/
def fDeriv (asteroids : List Asteroid) (s : RKState) : RKState :=
  ⟨s.vx, s.vy, (acceleration s asteroids).1, (acceleration s asteroids).2⟩

/-- One RK4 step of orbit_current/orbit.py: the four stages k1..k4 and the
combination state + dt/6 * (k1 + 2*k2 + 2*k3 + k4), componentwise. -/
def rk4_step (state : RKState) (dt : ℝ) (asteroids : List Asteroid) : RKState :=
  let f := fDeriv asteroids
  let k1 := f state
  let s2 := state + (dt / 2) • k1
  let k2 := f s2
  let s3 := state + (dt / 2) • k2
  let k3 := f s3
  let s4 := state + dt • k3
  let k4 := f s4
  state + (dt / 6) • (k1 + (2 : ℝ) • k2 + (2 : ℝ) • k3 + k4)

/-- The per-asteroid collision-and-picture loop of the main loop of
orbit_current/orbit.py, at satellite position (x, y).  Returns the updated
asteroid list, the number of times picture_count was incremented, and whether
a collision ended the game (the loop breaks there, leaving the remaining
asteroids unprocessed). -/
def processAsteroids (x y : ℝ) : List Asteroid → List Asteroid × ℕ × Bool
  | [] => ([], 0, false)
  | ast :: rest =>
    let distance := Real.sqrt ((x - ast.posx) ^ 2 + (y - ast.posy) ^ 2)
    let asteroid_radius : ℝ := ((ast.size / 2 : ℕ) : ℝ)
    if distance < satellite_radius + asteroid_radius then
      (ast :: rest, 0, true)
    else if distance < satellite_radius + asteroid_radius + PICTURE_MARGIN ∧
        ast.pictured = false then
      let r := processAsteroids x y rest
      ({ ast with pictured := true } :: r.1, r.2.1 + 1, r.2.2)
    else
      let r := processAsteroids x y rest
      (ast :: r.1, r.2.1, r.2.2)

/-- Number of asteroids whose pictured flag is set. -/
def countPictured (l : List Asteroid) : ℕ := l.countP (fun a => a.pictured)

/-- Relation between an asteroid before and after one pass of the picture
loop: all data fields are unchanged and the pictured flag can only go from
false to true, never back. -/
def pictureMono (a b : Asteroid) : Prop :=
  a.posx = b.posx ∧ a.posy = b.posy ∧ a.mass = b.mass ∧ a.size = b.size ∧
    (a.pictured = true → b.pictured = true)

end Orbit

namespace Launch

/-- Screen width of orbit_current/assets/launch.py. -/
def WIDTH : ℝ := 1400

/-- Screen height of orbit_current/assets/launch.py. -/
def HEIGHT : ℝ := 700

/-- Gravitational parameter GM of orbit_current/assets/launch.py. -/
def GM : ℝ := 500000

/-- Integration timestep dt of orbit_current/assets/launch.py. -/
def dt : ℝ := 0.1

/-- Win threshold REVOLUTIONS_TO_WIN of orbit_current/assets/launch.py. -/
def REVOLUTIONS_TO_WIN : ℝ := 20

/-- Planet radius: half the width of the 150 by 150 scaled planet image. -/
def planet_radius : ℝ := 75

/-- Planet position (WIDTH // 2, HEIGHT // 2) of orbit_current/assets/launch.py. -/
def planet_pos : ℝ × ℝ := (700, 350)

/-- The gravitational_acceleration helper of orbit_current/assets/launch.py:
zero at the planet centre, and -GM * r_vec / r^3 elsewhere. -/
def gravitational_acceleration (pos : ℝ × ℝ) : ℝ × ℝ :=
  let r_vec := pos - planet_pos
  let r := vnorm r_vec
  if r = 0 then (0, 0)
  else vdiv ((-GM) • r_vec) (r ^ 3)

/-- The rk4_update helper of orbit_current/assets/launch.py, with the
velocity stages k1v..k4v and position stages k1p..k4p interleaved exactly as
in the source. -/
def rk4_update (pos vel : ℝ × ℝ) (dt : ℝ) : (ℝ × ℝ) × (ℝ × ℝ) :=
  let a1 := gravitational_acceleration pos
  let k1v := a1
  let k1p := vel
  let a2 := gravitational_acceleration (pos + (0.5 * dt) • k1p)
  let k2v := a2
  let k2p := vel + (0.5 * dt) • k1v
  let a3 := gravitational_acceleration (pos + (0.5 * dt) • k2p)
  let k3v := a3
  let k3p := vel + (0.5 * dt) • k2v
  let a4 := gravitational_acceleration (pos + dt • k3p)
  let k4v := a4
  let k4p := vel + dt • k3v
  let new_vel := vel + vdiv (dt • (k1v + (2 : ℝ) • k2v + (2 : ℝ) • k3v + k4v)) 6
  let new_pos := pos + vdiv (dt • (k1p + (2 : ℝ) • k2p + (2 : ℝ) • k3p + k4p)) 6
  (new_pos, new_vel)

/-- The angle-wrapping expression (delta + 180) % 360 - 180 used by the
update methods of both rocket classes, with the Python float modulo. -/
def wrapAngle (delta : ℝ) : ℝ := floorMod (delta + 180) 360 - 180

/-- State of the RKRocket class of orbit_current/assets/launch.py.  The
energies dictionary of four lists is modelled as four list fields. -/
structure RKRocket where
  pos : ℝ × ℝ
  vel : ℝ × ℝ
  trail : List (ℝ × ℝ)
  prev_angle : ℝ
  total_angle : ℝ
  status : Status
  time : ℝ
  energies_t : List ℝ
  energies_kin : List ℝ
  energies_pot : List ℝ
  energies_mech : List ℝ
  speed : ℝ
  acc : ℝ × ℝ

/-- The RKRocket constructor of orbit_current/assets/launch.py. -/
def RKRocket.init (pos vel : ℝ × ℝ) : RKRocket :=
  { pos := pos
    vel := vel
    trail := []
    prev_angle := angle_to (pos - planet_pos) (1, 0)
    total_angle := 0
    status := Status.inOrbit
    time := 0
    energies_t := []
    energies_kin := []
    energies_pot := []
    energies_mech := []
    speed := vnorm vel
    acc := gravitational_acceleration pos }

/-- The RKRocket.update method of orbit_current/assets/launch.py: one RK4
step, trail append, wrapped angle accumulation, and diagnostics. -/
def RKRocket.update (s : RKRocket) : RKRocket :=
  let pv := rk4_update s.pos s.vel dt
  let pos := pv.1
  let vel := pv.2
  let angle := angle_to (pos - planet_pos) (1, 0)
  let diff := wrapAngle (angle - s.prev_angle)
  let time := s.time + dt
  let speed := vnorm vel
  let r := vnorm (pos - planet_pos)
  let kin := 0.5 * speed ^ 2
  let pot := -GM / r
  let mech := kin + pot
  { pos := pos
    vel := vel
    trail := s.trail ++ [pos]
    prev_angle := angle
    total_angle := s.total_angle + diff
    status := s.status
    time := time
    energies_t := s.energies_t ++ [time]
    energies_kin := s.energies_kin ++ [kin]
    energies_pot := s.energies_pot ++ [pot]
    energies_mech := s.energies_mech ++ [mech]
    speed := speed
    acc := gravitational_acceleration pos }

/-- The RKRocket.revolutions method: abs(total_angle) / 360. -/
def RKRocket.revolutions (s : RKRocket) : ℝ := |s.total_angle| / 360

/-- State of the VerletRocket class of orbit_current/assets/launch.py: the
integration state is the pair of current and previous position; no velocity
vector is stored (speed is a reported scalar diagnostic). -/
structure VerletRocket where
  pos : ℝ × ℝ
  prev_pos : ℝ × ℝ
  trail : List (ℝ × ℝ)
  prev_angle : ℝ
  total_angle : ℝ
  status : Status
  time : ℝ
  energies_t : List ℝ
  energies_kin : List ℝ
  energies_pot : List ℝ
  energies_mech : List ℝ
  speed : ℝ
  acc : ℝ × ℝ

/-- The VerletRocket constructor of orbit_current/assets/launch.py, with the
half-step synthetic previous position
pos - vel * dt + 0.5 * a(pos) * dt^2. -/
def VerletRocket.init (pos vel : ℝ × ℝ) : VerletRocket :=
  { pos := pos
    prev_pos := pos - dt • vel + ((0.5 : ℝ) * dt ^ 2) • gravitational_acceleration pos
    trail := []
    prev_angle := angle_to (pos - planet_pos) (1, 0)
    total_angle := 0
    status := Status.inOrbit
    time := 0
    energies_t := []
    energies_kin := []
    energies_pot := []
    energies_mech := []
    speed := vnorm vel
    acc := gravitational_acceleration pos }

/-- The VerletRocket.update method of orbit_current/assets/launch.py:
new_pos = 2*pos - prev_pos + a(pos)*dt^2, central-difference velocity for
reporting, then trail, angle and energy bookkeeping. -/
def VerletRocket.update (s : VerletRocket) : VerletRocket :=
  let a := gravitational_acceleration s.pos
  let new_pos := (2 : ℝ) • s.pos - s.prev_pos + dt ^ 2 • a
  let v_vec := vdiv (new_pos - s.prev_pos) (2 * dt)
  let pos := new_pos
  let angle := angle_to (pos - planet_pos) (1, 0)
  let diff := wrapAngle (angle - s.prev_angle)
  let time := s.time + dt
  let speed := vnorm v_vec
  let r := vnorm (pos - planet_pos)
  let kin := 0.5 * speed ^ 2
  let pot := -GM / r
  let mech := kin + pot
  { pos := pos
    prev_pos := s.pos
    trail := s.trail ++ [pos]
    prev_angle := angle
    total_angle := s.total_angle + diff
    status := s.status
    time := time
    energies_t := s.energies_t ++ [time]
    energies_kin := s.energies_kin ++ [kin]
    energies_pot := s.energies_pot ++ [pot]
    energies_mech := s.energies_mech ++ [mech]
    speed := speed
    acc := gravitational_acceleration pos }

/-- The VerletRocket.revolutions method: abs(total_angle) / 360. -/
def VerletRocket.revolutions (s : VerletRocket) : ℝ := |s.total_angle| / 360

/-- On-screen predicate of the status check in the main loop of
orbit_current/assets/launch.py: 0 <= x <= WIDTH and 0 <= y <= HEIGHT. -/
def inBounds (p : ℝ × ℝ) : Prop :=
  0 ≤ p.1 ∧ p.1 ≤ WIDTH ∧ 0 ≤ p.2 ∧ p.2 ≤ HEIGHT

instance (p : ℝ × ℝ) : Decidable (inBounds p) := by
  unfold inBounds
  infer_instance

/-- The per-rocket status check of the main loop of
orbit_current/assets/launch.py, for the RK4 rocket: only an In-Orbit rocket
is examined; leaving the screen sets Lost, else being within the planet
radius sets Collided, else reaching the revolution goal triggers the win
flag (game_over and win in the source) without changing the status. -/
def statusCheckRK (r : RKRocket) : RKRocket × Bool :=
  if r.status = Status.inOrbit then
    if ¬ inBounds r.pos then ({ r with status := Status.lost }, false)
    else if vnorm (r.pos - planet_pos) < planet_radius then
      ({ r with status := Status.collided }, false)
    else if REVOLUTIONS_TO_WIN ≤ RKRocket.revolutions r then (r, true)
    else (r, false)
  else (r, false)

/-- The per-rocket status check of the main loop of
orbit_current/assets/launch.py, for the Verlet rocket. -/
def statusCheckV (r : VerletRocket) : VerletRocket × Bool :=
  if r.status = Status.inOrbit then
    if ¬ inBounds r.pos then ({ r with status := Status.lost }, false)
    else if vnorm (r.pos - planet_pos) < planet_radius then
      ({ r with status := Status.collided }, false)
    else if REVOLUTIONS_TO_WIN ≤ VerletRocket.revolutions r then (r, true)
    else (r, false)
  else (r, false)

/-- One frame of the main loop of orbit_current/assets/launch.py restricted
to the RK4 rocket: the physics update runs only when the status is In-Orbit,
and the status check is likewise guarded, so a non-active rocket is left
untouched. -/
def rkTick (r : RKRocket) : RKRocket :=
  if r.status = Status.inOrbit then (statusCheckRK (RKRocket.update r)).1 else r

/-- One frame of the main loop of orbit_current/assets/launch.py restricted
to the Verlet rocket. -/
def vTick (r : VerletRocket) : VerletRocket :=
  if r.status = Status.inOrbit then (statusCheckV (VerletRocket.update r)).1 else r

end Launch

namespace Lagrange

/-- Gravitational constant G of src/opg/lagrange.py. -/
def G : ℝ := 0.1

/-- Mass of the large body in src/opg/lagrange.py. -/
def M_large : ℝ := 100000

/-- Mass of the small body in src/opg/lagrange.py. -/
def M_small : ℝ := 10

/-- Number of integration substeps per frame in src/opg/lagrange.py. -/
def SUBSTEPS : ℝ := 80

/-- Real-time duration constant of src/opg/lagrange.py. -/
def REAL_TIME_SIM_DURATION : ℝ := 60

/-- Game state of src/opg/lagrange.py: WAITING_FOR_CLICK, SIMULATING or
GAME_OVER. -/
inductive GameState where
  | waiting
  | simulating
  | gameOver
  deriving DecidableEq, Repr

/-- The gravitational_acceleration helper of src/opg/lagrange.py: zero when
the separation is zero, and G * m / r^2 times the normalized separation
vector otherwise. -/
def gravitational_acceleration (pos other_pos : ℝ × ℝ) (other_mass : ℝ) : ℝ × ℝ :=
  let r_vec := other_pos - pos
  let r := vnorm r_vec
  if r = 0 then (0, 0)
  else (G * other_mass / r ^ 2) • vnormalize r_vec

/-- The leapfrog_update helper of src/opg/lagrange.py. -/
def leapfrog_update (pos vel_half acceleration : ℝ × ℝ) (dt : ℝ) :
    (ℝ × ℝ) × (ℝ × ℝ) :=
  let new_vel_half := vel_half + dt • acceleration
  let new_pos := pos + dt • new_vel_half
  (new_pos, new_vel_half)

/-- The module-level mutable state of src/opg/lagrange.py
that reset_game manipulates (presentation-only globals excluded). -/
structure ModuleState where
  pos_large : ℝ × ℝ
  pos_small : ℝ × ℝ
  COM : ℝ × ℝ
  omega : ℝ
  vel_large : ℝ × ℝ
  vel_small : ℝ × ℝ
  vel_large_half : ℝ × ℝ
  vel_small_half : ℝ × ℝ
  sim_time : ℝ
  rocket_pos : Option (ℝ × ℝ)
  rocket_vel : Option (ℝ × ℝ)
  rocket_vel_half : Option (ℝ × ℝ)
  lagrange_points : List (ℝ × ℝ)
  TOTAL_SIM_TIME : ℝ
  frame_dt : ℝ
  sub_dt : ℝ
  game_state : GameState
  result_text : String
  rocket_trail : List (ℝ × ℝ × ℝ)
  spawn_point : Option (ℝ × ℝ)
  rocket_angle_prev : Option ℝ
  rocket_angle_total : ℝ
  rocket_revolutions : ℤ
  revolution_times : List ℝ
  last_revolution_time : Option ℝ
  rocket_offscreen_time : ℝ
  real_start_time : Option ℝ
  show_lagrange : Bool

/-- The reset_game function of src/opg/lagrange.py, parameterized by the
runtime screen size.  Every global named in its global declarations is
recomputed.  The source also contains the line assigning None to
spawn_point, but spawn_point is missing from the global declarations of
reset_game, so under Python scoping that line binds a function-local name
and the module-level spawn_point keeps its previous value; the embedding
keeps the input value of that field accordingly. -/
def reset_game (W H : ℝ) (s : ModuleState) : ModuleState :=
  let COM : ℝ × ℝ := (W / 2, H / 2)
  let d : ℝ := 420
  let total_mass := M_large + M_small
  let offset_large := (M_small / total_mass) * d
  let offset_small := (M_large / total_mass) * d
  let pos_large := COM - (offset_large, 0)
  let pos_small := COM + (offset_small, 0)
  let omega := Real.sqrt (G * total_mass / d ^ 3)
  let r_large := pos_large - COM
  let r_small := pos_small - COM
  let vel_large :=
    if vnorm r_large ≠ 0 then
      (omega * vnorm r_large) • vnormalize (-r_large.2, r_large.1)
    else (0, 0)
  let vel_small :=
    if vnorm r_small ≠ 0 then
      (omega * vnorm r_small) • vnormalize (-r_small.2, r_small.1)
    else (0, 0)
  let b := M_small / total_mass
  let c := M_large / total_mass
  let L1_offset := d * (1 - (b / 3) ^ ((1 : ℝ) / 3))
  let L2_offset := d * (1 + (b / 3) ^ ((1 : ℝ) / 3))
  let L3_offset := -d * (1 + b ^ ((5 : ℝ) / 12))
  let L1 := COM + (L1_offset, 0)
  let L2 := COM + (L2_offset, 0)
  let L3 := COM + (L3_offset, 0)
  let L4 := COM + (d / 2 * (c - b), d * Real.sqrt 3 / 2)
  let L5 := COM + (d / 2 * (c - b), -(d * Real.sqrt 3) / 2)
  let orbital_period := 2 * Real.pi / omega
  let TOTAL_SIM_TIME := 10 * orbital_period
  let frames := REAL_TIME_SIM_DURATION * 60
  let frame_dt := TOTAL_SIM_TIME / frames
  let sub_dt := frame_dt / SUBSTEPS
  { pos_large := pos_large
    pos_small := pos_small
    COM := COM
    omega := omega
    vel_large := vel_large
    vel_small := vel_small
    vel_large_half := vel_large
    vel_small_half := vel_small
    sim_time := 0
    rocket_pos := none
    rocket_vel := none
    rocket_vel_half := none
    lagrange_points := [L1, L2, L3, L4, L5]
    TOTAL_SIM_TIME := TOTAL_SIM_TIME
    frame_dt := frame_dt
    sub_dt := sub_dt
    game_state := GameState.waiting
    result_text := ""
    rocket_trail := []
    spawn_point := s.spawn_point
    rocket_angle_prev := none
    rocket_angle_total := 0
    rocket_revolutions := 0
    revolution_times := []
    last_revolution_time := none
    rocket_offscreen_time := 0
    real_start_time := none
    show_lagrange := false }

/-- A concrete module state as left behind by a finished run of
src/opg/lagrange.py: the rocket was spawned at (300, 200), accumulated trail
and revolution data, and the game reached GAME_OVER. -/
def priorRunState : ModuleState :=
  { pos_large := (918, 540)
    pos_small := (1380, 540)
    COM := (960, 540)
    omega := 1
    vel_large := (0, 1)
    vel_small := (0, -1)
    vel_large_half := (0, 1)
    vel_small_half := (0, -1)
    sim_time := 55
    rocket_pos := some (310, 240)
    rocket_vel := some (3, 4)
    rocket_vel_half := some (3, 4)
    lagrange_points := [(1100, 540), (1500, 540), (520, 540), (960, 900), (960, 180)]
    TOTAL_SIM_TIME := 600
    frame_dt := 1
    sub_dt := 1
    game_state := GameState.gameOver
    result_text := "Game Over! Rocket collided with a body."
    rocket_trail := [(0, 300, 200), (1, 305, 220), (2, 310, 240)]
    spawn_point := some (300, 200)
    rocket_angle_prev := some 1
    rocket_angle_total := 20
    rocket_revolutions := 3
    revolution_times := [6, 7]
    last_revolution_time := some 50
    rocket_offscreen_time := 2
    real_start_time := some 12000
    show_lagrange := true }

end Lagrange

/-- C1: one RK4 step performs the four acceleration evaluations of the
classical fourth-order Runge-Kutta scheme, at the given state, at
state + (dt/2)*k1, at state + (dt/2)*k2 and at state + dt*k3, and returns
state + (dt/6)*(k1 + 2*k2 + 2*k3 + k4): both rk4_step of
orbit_current/orbit.py and rk4_update of orbit_current/assets/launch.py
(on the coupled position/velocity system) equal the classical scheme. -/
theorem c1_rk4_is_classical :
    (∀ (state : Orbit.RKState) (dt : ℝ) (asteroids : List Orbit.Asteroid),
      Orbit.rk4_step state dt asteroids =
        classicalRK4 (Orbit.fDeriv asteroids) dt state) ∧
    (∀ (pos vel : ℝ × ℝ) (dt : ℝ),
      Launch.rk4_update pos vel dt =
        classicalRK4
          (fun s : (ℝ × ℝ) × (ℝ × ℝ) =>
            (s.2, Launch.gravitational_acceleration s.1))
          dt (pos, vel)) := by
  constructor
  · intro state dt asteroids
    rfl
  · intro pos vel dt
    have hs : dt / 2 = 0.5 * dt := by
      rw [show (0.5 : ℝ) = 1 / 2 by norm_num]
      ring
    have h6 : ∀ v : ℝ × ℝ, vdiv (dt • v) 6 = (dt / 6) • v := by
      intro v
      unfold vdiv
      rw [Prod.ext_iff]
      constructor <;> simp [smul_eq_mul] <;> ring
    simp only [Launch.rk4_update, classicalRK4, h6, hs]
    simp [Prod.ext_iff, Prod.fst_add, Prod.snd_add, Prod.smul_fst, Prod.smul_snd]

/-- Helper: the clamped squared separation is at least 1. -/
theorem one_le_clampedRsq (s : Orbit.RKState) (ast : Orbit.Asteroid) :
    1 ≤ Orbit.clampedRsq s ast := by
  simp only [Orbit.clampedRsq]
  by_cases h :
      (ast.posx - s.x) * (ast.posx - s.x) + (ast.posy - s.y) * (ast.posy - s.y) < 1
  · rw [if_pos h]
  · rw [if_neg h]
    linarith [not_lt.mp h]

/-- C2: the Verlet integrator state is the pair of current and previous
position; construction synthesizes prev_pos = pos - v*dt + 0.5*a(pos)*dt^2,
each update sets the new position to 2*pos - prev_pos + a(pos)*dt^2 and
shifts prev_pos to the old position, and the new (pos, prev_pos) pair is a
function of the old (pos, prev_pos) pair alone — no stored velocity enters
the recurrence. -/
theorem c2_verlet_positions_only :
    (∀ pos vel : ℝ × ℝ,
      (Launch.VerletRocket.init pos vel).pos = pos ∧
      (Launch.VerletRocket.init pos vel).prev_pos =
        pos - Launch.dt • vel +
          ((0.5 : ℝ) * Launch.dt ^ 2) • Launch.gravitational_acceleration pos) ∧
    (∀ s : Launch.VerletRocket,
      (Launch.VerletRocket.update s).pos =
        (2 : ℝ) • s.pos - s.prev_pos +
          Launch.dt ^ 2 • Launch.gravitational_acceleration s.pos ∧
      (Launch.VerletRocket.update s).prev_pos = s.pos) ∧
    (∀ (p q : ℝ × ℝ) (tr₁ tr₂ : List (ℝ × ℝ)) (pa₁ pa₂ ta₁ ta₂ : ℝ)
        (st₁ st₂ : Status) (t₁ t₂ : ℝ) (e₁ e₂ f₁ f₂ g₁ g₂ k₁ k₂ : List ℝ)
        (sp₁ sp₂ : ℝ) (ac₁ ac₂ : ℝ × ℝ),
      (Launch.VerletRocket.update
          ⟨p, q, tr₁, pa₁, ta₁, st₁, t₁, e₁, f₁, g₁, k₁, sp₁, ac₁⟩).pos =
        (Launch.VerletRocket.update
          ⟨p, q, tr₂, pa₂, ta₂, st₂, t₂, e₂, f₂, g₂, k₂, sp₂, ac₂⟩).pos ∧
      (Launch.VerletRocket.update
          ⟨p, q, tr₁, pa₁, ta₁, st₁, t₁, e₁, f₁, g₁, k₁, sp₁, ac₁⟩).prev_pos =
        (Launch.VerletRocket.update
          ⟨p, q, tr₂, pa₂, ta₂, st₂, t₂, e₂, f₂, g₂, k₂, sp₂, ac₂⟩).prev_pos) :=
  ⟨fun _ _ => ⟨rfl, rfl⟩, fun _ => ⟨rfl, rfl⟩,
   fun _ _ _ _ _ _ _ _ _ _ _ _ _ _ _ _ _ _ _ _ _ _ _ _ => ⟨rfl, rfl⟩⟩

/-- C3: the gravitational acceleration is total.  In orbit_current/orbit.py
the clamped squared separation is at least 1, so neither divisor (r_sq nor
its square root) is zero, and at a position coinciding exactly with an
asteroid the contribution evaluates to the zero vector; the r = 0 guards of
src/opg/lagrange.py and orbit_current/assets/launch.py likewise return the
zero vector at coincidence. -/
theorem c3_gravity_total (s : Orbit.RKState) (ast : Orbit.Asteroid) :
    1 ≤ Orbit.clampedRsq s ast ∧
    Orbit.clampedRsq s ast ≠ 0 ∧
    Real.sqrt (Orbit.clampedRsq s ast) ≠ 0 ∧
    (∀ (m : ℝ) (pictured : Bool) (size : ℕ),
      Orbit.accelContrib s ⟨s.x, s.y, m, pictured, size⟩ = (0, 0)) ∧
    (∀ (p : ℝ × ℝ) (m : ℝ), Lagrange.gravitational_acceleration p p m = (0, 0)) ∧
    Launch.gravitational_acceleration Launch.planet_pos = (0, 0) := by
  have h1 := one_le_clampedRsq s ast
  have h0 : (0 : ℝ) < Orbit.clampedRsq s ast := lt_of_lt_of_le one_pos h1
  refine ⟨h1, ne_of_gt h0, ne_of_gt (Real.sqrt_pos.mpr h0), ?_, ?_, ?_⟩
  · intro m pictured size
    simp [Orbit.accelContrib]
  · intro p m
    simp [Lagrange.gravitational_acceleration, vnorm]
  · simp [Launch.gravitational_acceleration, vnorm]

/-- C4: terminal states are sticky.  A rocket whose status is not In-Orbit
is neither integrated nor re-examined by the status checks: one frame of the
main loop of orbit_current/assets/launch.py leaves it completely unchanged,
and hence so does every number of subsequent frames. -/
theorem c4_terminal_states_sticky (r : Launch.RKRocket) (v : Launch.VerletRocket)
    (hr : r.status ≠ Status.inOrbit) (hv : v.status ≠ Status.inOrbit) :
    (∀ n : ℕ, Launch.rkTick^[n] r = r) ∧ (∀ n : ℕ, Launch.vTick^[n] v = v) := by
  constructor
  · intro n
    apply Function.iterate_fixed
    simp [Launch.rkTick, hr]
  · intro n
    apply Function.iterate_fixed
    simp [Launch.vTick, hv]

/-- Witness for C4: a Lost RK4 rocket and a Collided Verlet rocket stay
exactly as they are over several frames. -/
theorem c4_witness :
    Launch.rkTick^[3]
        ⟨(10, 20), (1, 2), [], 0, 0, Status.lost, 0, [], [], [], [], 0, (0, 0)⟩ =
      ⟨(10, 20), (1, 2), [], 0, 0, Status.lost, 0, [], [], [], [], 0, (0, 0)⟩ ∧
    Launch.vTick^[2]
        ⟨(10, 20), (9, 19), [], 0, 0, Status.collided, 0, [], [], [], [], 0, (0, 0)⟩ =
      ⟨(10, 20), (9, 19), [], 0, 0, Status.collided, 0, [], [], [], [], 0, (0, 0)⟩ :=
  ⟨(c4_terminal_states_sticky
      ⟨(10, 20), (1, 2), [], 0, 0, Status.lost, 0, [], [], [], [], 0, (0, 0)⟩
      ⟨(10, 20), (9, 19), [], 0, 0, Status.collided, 0, [], [], [], [], 0, (0, 0)⟩
      (by simp) (by simp)).1 3,
   (c4_terminal_states_sticky
      ⟨(10, 20), (1, 2), [], 0, 0, Status.lost, 0, [], [], [], [], 0, (0, 0)⟩
      ⟨(10, 20), (9, 19), [], 0, 0, Status.collided, 0, [], [], [], [], 0, (0, 0)⟩
      (by simp) (by simp)).2 2⟩

/-- C7: evaluation of reset_game of src/opg/lagrange.py on a finished prior
run.  The trail, counters, timers and bodies are re-seeded, but the
module-level spawn_point keeps its prior-run value, because the source line
assigning None to spawn_point binds a function-local name (spawn_point is
missing from the global declarations of reset_game). -/
theorem c7_reset_spawn_point_leak :
    (Lagrange.reset_game 1920 1080 Lagrange.priorRunState).rocket_trail = [] ∧
    (Lagrange.reset_game 1920 1080 Lagrange.priorRunState).rocket_revolutions = 0 ∧
    (Lagrange.reset_game 1920 1080 Lagrange.priorRunState).rocket_angle_total = 0 ∧
    (Lagrange.reset_game 1920 1080 Lagrange.priorRunState).sim_time = 0 ∧
    (Lagrange.reset_game 1920 1080 Lagrange.priorRunState).rocket_offscreen_time = 0 ∧
    (Lagrange.reset_game 1920 1080 Lagrange.priorRunState).revolution_times = [] ∧
    (Lagrange.reset_game 1920 1080 Lagrange.priorRunState).game_state =
      Lagrange.GameState.waiting ∧
    (Lagrange.reset_game 1920 1080 Lagrange.priorRunState).spawn_point =
      some (300, 200) :=
  ⟨rfl, rfl, rfl, rfl, rfl, rfl, rfl, rfl⟩

/-- Helper: the acceleration fold is the sum of the per-asteroid
contributions, shifted by the initial accumulator. -/
theorem foldl_vadd_eq_sum (s : Orbit.RKState) (init : ℝ × ℝ)
    (l : List Orbit.Asteroid) :
    l.foldl (fun acc ast => acc + Orbit.accelContrib s ast) init =
      init + (l.map (Orbit.accelContrib s)).sum := by
  induction l generalizing init with
  | nil => simp
  | cons a t ih => simp [ih, add_assoc]

/-- C8: the summed gravitational acceleration is order-independent:
evaluating the per-body contributions over any permutation of the asteroid
list yields the same acceleration vector. -/
theorem c8_acceleration_perm_invariant (s : Orbit.RKState)
    (l₁ l₂ : List Orbit.Asteroid) (h : l₁.Perm l₂) :
    Orbit.acceleration s l₁ = Orbit.acceleration s l₂ := by
  unfold Orbit.acceleration
  rw [foldl_vadd_eq_sum, foldl_vadd_eq_sum, (h.map (Orbit.accelContrib s)).sum_eq]

/-- Witness for C8: swapping two concrete asteroids leaves the summed
acceleration unchanged. -/
theorem c8_witness :
    Orbit.acceleration ⟨0, 0, 0, 0⟩ [⟨3, 4, 10, false, 80⟩, ⟨6, 8, 20, true, 90⟩] =
      Orbit.acceleration ⟨0, 0, 0, 0⟩ [⟨6, 8, 20, true, 90⟩, ⟨3, 4, 10, false, 80⟩] :=
  c8_acceleration_perm_invariant ⟨0, 0, 0, 0⟩ _ _ (List.Perm.swap _ _ _)

/-- Helper: vnorm agrees with the complex absolute value. -/
theorem vnorm_eq_complex_abs (v : ℝ × ℝ) : vnorm v = Complex.abs ⟨v.1, v.2⟩ := by
  unfold vnorm
  rw [Complex.abs_apply, Complex.normSq_mk]
  congr 1
  ring

/-- Helper: triangle inequality for vnorm. -/
theorem vnorm_add_le (u v : ℝ × ℝ) : vnorm (u + v) ≤ vnorm u + vnorm v := by
  rw [vnorm_eq_complex_abs, vnorm_eq_complex_abs, vnorm_eq_complex_abs]
  have h : (⟨(u + v).1, (u + v).2⟩ : ℂ) = ⟨u.1, u.2⟩ + ⟨v.1, v.2⟩ := by
    apply Complex.ext <;> simp [Prod.fst_add, Prod.snd_add]
  rw [h]
  exact Complex.abs.add_le _ _

/-- Helper: vnorm of the zero vector. -/
theorem vnorm_zero_eq : vnorm (0 : ℝ × ℝ) = 0 := by
  unfold vnorm
  simp

/-- Helper: vnorm of a list sum is at most the sum of the vnorms. -/
theorem vnorm_sum_le (l : List (ℝ × ℝ)) : vnorm l.sum ≤ (l.map vnorm).sum := by
  induction l with
  | nil => simp [vnorm_zero_eq]
  | cons a t ih =>
    simp only [List.sum_cons, List.map_cons]
    calc vnorm (a + t.sum) ≤ vnorm a + vnorm t.sum := vnorm_add_le _ _
      _ ≤ vnorm a + (t.map vnorm).sum := by linarith

/-- Helper: bound on one clamped inverse-square contribution in terms of
the clamped squared separation q. -/
theorem sqrt_clamp_bound (dx dy q gm : ℝ) (hgm : 0 ≤ gm) (h1 : 1 ≤ q)
    (hle : dx * dx + dy * dy ≤ q ^ 3) :
    Real.sqrt ((gm / q * (dx / Real.sqrt q)) ^ 2 +
      (gm / q * (dy / Real.sqrt q)) ^ 2) ≤ gm := by
  have hq0 : (0 : ℝ) < q := lt_of_lt_of_le one_pos h1
  have hsq : Real.sqrt q ^ 2 = q := Real.sq_sqrt hq0.le
  have hsp : (0 : ℝ) < Real.sqrt q := Real.sqrt_pos.mpr hq0
  have e1 : ∀ a : ℝ, (gm / q * (a / Real.sqrt q)) ^ 2 = gm ^ 2 * (a * a) / q ^ 3 := by
    intro a
    rw [mul_pow, div_pow, div_pow, hsq]
    field_simp
    ring
  rw [e1 dx, e1 dy]
  have hinner : gm ^ 2 * (dx * dx) / q ^ 3 + gm ^ 2 * (dy * dy) / q ^ 3 =
      gm ^ 2 * (dx * dx + dy * dy) / q ^ 3 := by
    field_simp
    ring
  rw [hinner]
  have hb : gm ^ 2 * (dx * dx + dy * dy) / q ^ 3 ≤ gm ^ 2 := by
    rw [div_le_iff (by positivity)]
    exact mul_le_mul_of_nonneg_left hle (sq_nonneg gm)
  calc Real.sqrt (gm ^ 2 * (dx * dx + dy * dy) / q ^ 3)
      ≤ Real.sqrt (gm ^ 2) := Real.sqrt_le_sqrt hb
    _ = gm := Real.sqrt_sq hgm

/-- Helper: each per-asteroid contribution has norm at most G times the
asteroid mass. -/
theorem accelContrib_norm_le (s : Orbit.RKState) (ast : Orbit.Asteroid)
    (hm : 0 ≤ ast.mass) :
    vnorm (Orbit.accelContrib s ast) ≤ Orbit.G * ast.mass := by
  have h1 := one_le_clampedRsq s ast
  have hgm : 0 ≤ Orbit.G * ast.mass := mul_nonneg (by norm_num [Orbit.G]) hm
  have hle : (ast.posx - s.x) * (ast.posx - s.x) +
      (ast.posy - s.y) * (ast.posy - s.y) ≤ (Orbit.clampedRsq s ast) ^ 3 := by
    simp only [Orbit.clampedRsq]
    by_cases h : (ast.posx - s.x) * (ast.posx - s.x) +
        (ast.posy - s.y) * (ast.posy - s.y) < 1
    · rw [if_pos h]
      nlinarith
    · rw [if_neg h]
      have hge := not_lt.mp h
      nlinarith [mul_nonneg
        (mul_nonneg (sub_nonneg.mpr hge) (le_trans zero_le_one hge))
        (by linarith : (0 : ℝ) ≤ (ast.posx - s.x) * (ast.posx - s.x) +
          (ast.posy - s.y) * (ast.posy - s.y) + 1)]
  exact sqrt_clamp_bound (ast.posx - s.x) (ast.posy - s.y)
    (Orbit.clampedRsq s ast) (Orbit.G * ast.mass) hgm h1 hle

/-- C9: thanks to the clamp, each per-body contribution has magnitude at
most G times the mass of that body, and the total acceleration magnitude is
bounded by G times the sum of the body masses (for nonnegative masses). -/
theorem c9_acceleration_bounded (s : Orbit.RKState)
    (asteroids : List Orbit.Asteroid)
    (hm : ∀ ast ∈ asteroids, 0 ≤ ast.mass) :
    (∀ ast ∈ asteroids, vnorm (Orbit.accelContrib s ast) ≤ Orbit.G * ast.mass) ∧
    vnorm (Orbit.acceleration s asteroids) ≤
      Orbit.G * (asteroids.map Orbit.Asteroid.mass).sum := by
  constructor
  · intro ast hast
    exact accelContrib_norm_le s ast (hm ast hast)
  · unfold Orbit.acceleration
    rw [foldl_vadd_eq_sum,
      show ((0 : ℝ), (0 : ℝ)) = (0 : ℝ × ℝ) from rfl, zero_add]
    calc vnorm (asteroids.map (Orbit.accelContrib s)).sum
        ≤ ((asteroids.map (Orbit.accelContrib s)).map vnorm).sum :=
          vnorm_sum_le _
      _ = (asteroids.map fun ast => vnorm (Orbit.accelContrib s ast)).sum := by
          rw [List.map_map]
          rfl
      _ ≤ (asteroids.map fun ast => Orbit.G * ast.mass).sum := by
          apply List.sum_le_sum
          intro ast hast
          exact accelContrib_norm_le s ast (hm ast hast)
      _ = Orbit.G * (asteroids.map Orbit.Asteroid.mass).sum := by
          rw [← List.sum_map_mul_left]

/-- Witness for C9 at a concrete satellite state and a one-asteroid list. -/
theorem c9_witness :
    vnorm (Orbit.acceleration ⟨0, 0, 0, 0⟩ [⟨3, 4, 12, false, 80⟩]) ≤
      Orbit.G * (([⟨3, 4, 12, false, 80⟩] : List Orbit.Asteroid).map
        Orbit.Asteroid.mass).sum :=
  (c9_acceleration_bounded ⟨0, 0, 0, 0⟩ [⟨3, 4, 12, false, 80⟩]
    (by
      intro ast hast
      rw [List.mem_singleton] at hast
      subst hast
      show (0 : ℝ) ≤ 12
      norm_num)).2

/-- Helper: pictureMono is reflexive. -/
theorem pictureMono_refl (a : Orbit.Asteroid) : Orbit.pictureMono a a :=
  ⟨rfl, rfl, rfl, rfl, fun h => h⟩

/-- C10: the picture loop of orbit_current/orbit.py only ever raises
pictured flags — each flag goes from false to true at most once and is
never cleared within a run, and all other asteroid data is unchanged —
picture_count is incremented exactly once per newly pictured asteroid, and
the count of pictured asteroids (which picture_count equals throughout a
run, both starting at zero) never decreases and never exceeds the number
of asteroids. -/
theorem c10_picture_count_invariant (x y : ℝ) (l : List Orbit.Asteroid) :
    List.Forall₂ Orbit.pictureMono l (Orbit.processAsteroids x y l).1 ∧
    Orbit.countPictured (Orbit.processAsteroids x y l).1 =
      Orbit.countPictured l + (Orbit.processAsteroids x y l).2.1 ∧
    Orbit.countPictured l + (Orbit.processAsteroids x y l).2.1 ≤ l.length := by
  induction l with
  | nil =>
    refine ⟨List.Forall₂.nil, rfl, ?_⟩
    simp [Orbit.processAsteroids, Orbit.countPictured]
  | cons ast rest ih =>
    obtain ⟨ihF, ihC, ihB⟩ := ih
    simp only [Orbit.countPictured] at ihC ihB ⊢
    by_cases h1 : Real.sqrt ((x - ast.posx) ^ 2 + (y - ast.posy) ^ 2) <
        Orbit.satellite_radius + ((ast.size / 2 : ℕ) : ℝ)
    · have hres : Orbit.processAsteroids x y (ast :: rest) =
          (ast :: rest, 0, true) := by
        simp only [Orbit.processAsteroids]
        rw [if_pos h1]
      rw [hres]
      refine ⟨List.forall₂_same.mpr fun a _ => pictureMono_refl a, by simp, ?_⟩
      have hlen := List.countP_le_length (fun a : Orbit.Asteroid => a.pictured)
        (l := ast :: rest)
      simpa using hlen
    · by_cases h2 : Real.sqrt ((x - ast.posx) ^ 2 + (y - ast.posy) ^ 2) <
          Orbit.satellite_radius + ((ast.size / 2 : ℕ) : ℝ) + Orbit.PICTURE_MARGIN ∧
          ast.pictured = false
      · have hres : Orbit.processAsteroids x y (ast :: rest) =
            ({ ast with pictured := true } :: (Orbit.processAsteroids x y rest).1,
              (Orbit.processAsteroids x y rest).2.1 + 1,
              (Orbit.processAsteroids x y rest).2.2) := by
          simp only [Orbit.processAsteroids]
          rw [if_neg h1, if_pos h2]
        rw [hres]
        refine ⟨List.Forall₂.cons ⟨rfl, rfl, rfl, rfl, fun _ => rfl⟩ ihF, ?_, ?_⟩
        · simp only [List.countP_cons, h2.2]
          simp
          omega
        · simp only [List.countP_cons, h2.2, List.length_cons]
          simp
          omega
      · have hres : Orbit.processAsteroids x y (ast :: rest) =
            (ast :: (Orbit.processAsteroids x y rest).1,
              (Orbit.processAsteroids x y rest).2.1,
              (Orbit.processAsteroids x y rest).2.2) := by
          simp only [Orbit.processAsteroids]
          rw [if_neg h1, if_neg h2]
        rw [hres]
        refine ⟨List.Forall₂.cons (pictureMono_refl ast) ihF, ?_, ?_⟩
        · cases hp : ast.pictured <;>
            · simp only [List.countP_cons, hp, List.length_cons]
              simp
              omega
        · cases hp : ast.pictured <;>
            · simp only [List.countP_cons, hp, List.length_cons]
              simp
              omega

/-- C5: the status checks of the main loop of orbit_current/assets/launch.py
are evaluated in fixed priority order on each rocket after its update:
leaving the bounding box sets Lost no matter what else holds, otherwise
being within the planet radius sets Collided, otherwise reaching the
revolutions-to-win goal raises the win flag (the completion outcome). -/
theorem c5_status_priority (r : Launch.RKRocket) (v : Launch.VerletRocket) :
    (r.status = Status.inOrbit → ¬ Launch.inBounds r.pos →
      Launch.statusCheckRK r = ({ r with status := Status.lost }, false)) ∧
    (r.status = Status.inOrbit → Launch.inBounds r.pos →
      vnorm (r.pos - Launch.planet_pos) < Launch.planet_radius →
      Launch.statusCheckRK r = ({ r with status := Status.collided }, false)) ∧
    (r.status = Status.inOrbit → Launch.inBounds r.pos →
      ¬ vnorm (r.pos - Launch.planet_pos) < Launch.planet_radius →
      Launch.REVOLUTIONS_TO_WIN ≤ Launch.RKRocket.revolutions r →
      Launch.statusCheckRK r = (r, true)) ∧
    (v.status = Status.inOrbit → ¬ Launch.inBounds v.pos →
      Launch.statusCheckV v = ({ v with status := Status.lost }, false)) ∧
    (v.status = Status.inOrbit → Launch.inBounds v.pos →
      vnorm (v.pos - Launch.planet_pos) < Launch.planet_radius →
      Launch.statusCheckV v = ({ v with status := Status.collided }, false)) ∧
    (v.status = Status.inOrbit → Launch.inBounds v.pos →
      ¬ vnorm (v.pos - Launch.planet_pos) < Launch.planet_radius →
      Launch.REVOLUTIONS_TO_WIN ≤ Launch.VerletRocket.revolutions v →
      Launch.statusCheckV v = (v, true)) := by
  refine ⟨?_, ?_, ?_, ?_, ?_, ?_⟩
  · intro h1 h2
    simp [Launch.statusCheckRK, h1, h2]
  · intro h1 h2 h3
    simp [Launch.statusCheckRK, h1, h2, h3]
  · intro h1 h2 h3 h4
    simp [Launch.statusCheckRK, h1, h2, h3, h4]
  · intro h1 h2
    simp [Launch.statusCheckV, h1, h2]
  · intro h1 h2 h3
    simp [Launch.statusCheckV, h1, h2, h3]
  · intro h1 h2 h3 h4
    simp [Launch.statusCheckV, h1, h2, h3, h4]

/-- Witness for C5: an off-screen RK4 rocket becomes Lost, an on-screen
Verlet rocket within the planet radius becomes Collided, and an on-screen
non-colliding RK4 rocket with 20 revolutions triggers the win flag. -/
theorem c5_witness :
    Launch.statusCheckRK
        ⟨(-5, 350), (0, 0), [], 0, 0, Status.inOrbit, 0, [], [], [], [], 0, (0, 0)⟩ =
      (⟨(-5, 350), (0, 0), [], 0, 0, Status.lost, 0, [], [], [], [], 0, (0, 0)⟩,
        false) ∧
    Launch.statusCheckV
        ⟨(700, 340), (700, 341), [], 0, 0, Status.inOrbit, 0, [], [], [], [], 0,
          (0, 0)⟩ =
      (⟨(700, 340), (700, 341), [], 0, 0, Status.collided, 0, [], [], [], [], 0,
          (0, 0)⟩, false) ∧
    Launch.statusCheckRK
        ⟨(700, 250), (0, 0), [], 0, 7200, Status.inOrbit, 0, [], [], [], [], 0,
          (0, 0)⟩ =
      (⟨(700, 250), (0, 0), [], 0, 7200, Status.inOrbit, 0, [], [], [], [], 0,
          (0, 0)⟩, true) := by
  have hd1 : vnorm (((700 : ℝ), (340 : ℝ)) - Launch.planet_pos) = 10 := by
    have he : (((700 : ℝ), (340 : ℝ)) - Launch.planet_pos) = ((0 : ℝ), (-10 : ℝ)) := by
      rw [Prod.ext_iff]
      constructor <;> simp [Launch.planet_pos] <;> norm_num
    rw [he]
    unfold vnorm
    rw [show ((0 : ℝ) ^ 2 + (-10 : ℝ) ^ 2) = 10 ^ 2 by norm_num]
    exact Real.sqrt_sq (by norm_num)
  have hd2 : vnorm (((700 : ℝ), (250 : ℝ)) - Launch.planet_pos) = 100 := by
    have he : (((700 : ℝ), (250 : ℝ)) - Launch.planet_pos) = ((0 : ℝ), (-100 : ℝ)) := by
      rw [Prod.ext_iff]
      constructor <;> simp [Launch.planet_pos] <;> norm_num
    rw [he]
    unfold vnorm
    rw [show ((0 : ℝ) ^ 2 + (-100 : ℝ) ^ 2) = 100 ^ 2 by norm_num]
    exact Real.sqrt_sq (by norm_num)
  refine ⟨?_, ?_, ?_⟩
  · exact (c5_status_priority
      ⟨(-5, 350), (0, 0), [], 0, 0, Status.inOrbit, 0, [], [], [], [], 0, (0, 0)⟩
      ⟨(700, 340), (700, 341), [], 0, 0, Status.inOrbit, 0, [], [], [], [], 0,
        (0, 0)⟩).1 rfl
      (by
        intro hb
        have := hb.1
        norm_num at this)
  · exact (c5_status_priority
      ⟨(-5, 350), (0, 0), [], 0, 0, Status.inOrbit, 0, [], [], [], [], 0, (0, 0)⟩
      ⟨(700, 340), (700, 341), [], 0, 0, Status.inOrbit, 0, [], [], [], [], 0,
        (0, 0)⟩).2.2.2.2.1 rfl
      (by
        refine ⟨by norm_num, ?_, by norm_num, ?_⟩ <;>
          norm_num [Launch.WIDTH, Launch.HEIGHT])
      (by
        rw [show (⟨(700, 340), (700, 341), [], 0, 0, Status.inOrbit, 0, [], [], [],
            [], 0, (0, 0)⟩ : Launch.VerletRocket).pos = ((700 : ℝ), (340 : ℝ))
          from rfl, hd1]
        norm_num [Launch.planet_radius])
  · exact (c5_status_priority
      ⟨(700, 250), (0, 0), [], 0, 7200, Status.inOrbit, 0, [], [], [], [], 0,
        (0, 0)⟩
      ⟨(700, 340), (700, 341), [], 0, 0, Status.inOrbit, 0, [], [], [], [], 0,
        (0, 0)⟩).2.2.1 rfl
      (by
        refine ⟨by norm_num, ?_, by norm_num, ?_⟩ <;>
          norm_num [Launch.WIDTH, Launch.HEIGHT])
      (by
        rw [show (⟨(700, 250), (0, 0), [], 0, 7200, Status.inOrbit, 0, [], [], [],
            [], 0, (0, 0)⟩ : Launch.RKRocket).pos = ((700 : ℝ), (250 : ℝ))
          from rfl, hd2]
        norm_num [Launch.planet_radius])
      (by
        show Launch.REVOLUTIONS_TO_WIN ≤ |(7200 : ℝ)| / 360
        rw [abs_of_nonneg (by norm_num : (0 : ℝ) ≤ 7200)]
        norm_num [Launch.REVOLUTIONS_TO_WIN])

/-- C6 counterexample: two legitimate consecutive position angles, -90
degrees (position directly below the planet in screen coordinates) followed
by 90 degrees (directly above), produce a wrapped per-tick delta of exactly
-180 degrees, which is outside the claimed half-open interval
(-180, 180]. -/
theorem c6_counterexample :
    angle_to ((0 : ℝ), (1 : ℝ)) (1, 0) = -90 ∧
    angle_to ((0 : ℝ), (-1 : ℝ)) (1, 0) = 90 ∧
    Launch.wrapAngle (90 - (-90)) = -180 ∧
    ¬ (-180 < Launch.wrapAngle (90 - (-90)) ∧
        Launch.wrapAngle (90 - (-90)) ≤ 180) := by
  have hone : (⟨1, 0⟩ : ℂ) = 1 := by
    apply Complex.ext <;> simp
  have hI : (⟨0, 1⟩ : ℂ) = Complex.I := by
    apply Complex.ext <;> simp
  have hnegI : (⟨0, -1⟩ : ℂ) = -Complex.I := by
    apply Complex.ext <;> simp
  have hwrap : Launch.wrapAngle (90 - (-90)) = -180 := by
    unfold Launch.wrapAngle floorMod
    rw [show (90 : ℝ) - (-90) + 180 = 360 by norm_num]
    rw [show (360 : ℝ) / 360 = 1 by norm_num, Int.floor_one]
    norm_num
  refine ⟨?_, ?_, hwrap, ?_⟩
  · unfold angle_to atan2 degrees
    rw [hone, hI, Complex.arg_one, Complex.arg_I]
    field_simp
    ring
  · unfold angle_to atan2 degrees
    rw [hone, hnegI, Complex.arg_one, Complex.arg_neg_I]
    field_simp
    ring
  · intro hc
    rw [hwrap] at hc
    exact absurd hc.1 (by norm_num)

/-- C6 amended: the wrapped per-tick signed angle delta lies in the
half-open interval [-180, 180) (a jump of exactly 180 degrees wraps to
-180, not +180); it is what each update accumulates into total_angle, and
the reported revolution count is abs(total_angle) / 360. -/
theorem c6_amended :
    (∀ delta : ℝ,
      -180 ≤ Launch.wrapAngle delta ∧ Launch.wrapAngle delta < 180) ∧
    (∀ s : Launch.RKRocket,
      (Launch.RKRocket.update s).total_angle =
        s.total_angle +
          Launch.wrapAngle
            (angle_to ((Launch.RKRocket.update s).pos - Launch.planet_pos) (1, 0) -
              s.prev_angle)) ∧
    (∀ s : Launch.VerletRocket,
      (Launch.VerletRocket.update s).total_angle =
        s.total_angle +
          Launch.wrapAngle
            (angle_to ((Launch.VerletRocket.update s).pos - Launch.planet_pos)
                (1, 0) -
              s.prev_angle)) ∧
    (∀ s : Launch.RKRocket,
      Launch.RKRocket.revolutions s = |s.total_angle| / 360) ∧
    (∀ s : Launch.VerletRocket,
      Launch.VerletRocket.revolutions s = |s.total_angle| / 360) := by
  refine ⟨?_, fun _ => rfl, fun _ => rfl, fun _ => rfl, fun _ => rfl⟩
  intro delta
  have key : delta + 180 - 360 * (⌊(delta + 180) / 360⌋ : ℝ) =
      360 * Int.fract ((delta + 180) / 360) := by
    unfold Int.fract
    field_simp
  have h0 := Int.fract_nonneg ((delta + 180) / 360)
  have h1 := Int.fract_lt_one ((delta + 180) / 360)
  unfold Launch.wrapAngle floorMod
  constructor <;> linarith [key]

end
